import Mathlib

/-! Verification model of the dynamic-hostports controller (`src/main.go`).

The controller's pure logic (port-list parsing, naming) is translated
directly; the Kubernetes API is modelled as an oracle environment
(`ClusterEnv`) giving each call's outcome, and every modelled function
additionally returns the ordered list of API calls it issued.
-/

set_option autoImplicit false

namespace DynamicHostports

/-! Constants from main.go -/

def labelKey : String := "dynamic-hostports"

def annotKeyBase : String := "dynamic-hostports.k8s"

def managedByLabelKey : String := "app.kubernetes.io/managed-by"

def managedByLabelValue : String := annotKeyBase

def forPodLabelKey : String := "dynamic-hostports.k8s/for-pod"

/-! Port-list parsing (`splitHostportStrings`)

Go's `strings.Split(s, ".")` is modelled by `splitOnDot` on the
character list; Go's `strconv.Atoi` by `atoi` (optional sign, at least
one digit, all digits, value within int64 range).
-/

def isDigitCh (c : Char) : Bool := '0' ≤ c && c ≤ '9'

def digitsVal (cs : List Char) : Nat :=
  cs.foldl (fun a c => a * 10 + (c.toNat - 48)) 0

/-- Model of Go `strings.Split(s, ".")` (single-character separator). -/
def splitOnDot : List Char → List (List Char)
  | [] => [[]]
  | c :: rest =>
    if c = '.' then [] :: splitOnDot rest
    else
      match splitOnDot rest with
      | t :: ts => (c :: t) :: ts
      | [] => [[c]]

/-- Model of Go `strconv.Atoi`: optional leading sign, then one or more
decimal digits; errors on empty input, any non-digit, or int64 overflow. -/
def atoi (s : List Char) : Option Int :=
  match s with
  | [] => none
  | c :: cs =>
    let sd : Int × List Char :=
      if c = '+' then (1, cs)
      else if c = '-' then (-1, cs)
      else (1, c :: cs)
    if sd.2.isEmpty then none
    else if sd.2.all isDigitCh then
      let v : Int := sd.1 * (digitsVal sd.2 : Int)
      if v < -(2 ^ 63) ∨ 2 ^ 63 ≤ v then none else some v
    else none

/-- One loop iteration of `splitHostportStrings`: `strconv.Atoi` then the
range check `port <= 0 || port >= 65536`. -/
def parsePortTok (t : List Char) : Except String Int :=
  match atoi t with
  | none => .error ("invalid syntax")
  | some port =>
    if port ≤ 0 ∨ 65536 ≤ port then .error ("Port is not in valid range")
    else .ok port

/-- The loop of `splitHostportStrings`: first error aborts the whole batch. -/
def parsePorts : List (List Char) → Except String (List Int)
  | [] => .ok []
  | t :: rest =>
    match parsePortTok t with
    | .error e => .error e
    | .ok p =>
      match parsePorts rest with
      | .error e => .error e
      | .ok ps => .ok (p :: ps)

/-- Model of `splitHostportStrings` from main.go. -/
def splitHostportStrings (portsString : String) : Except String (List Int) :=
  parsePorts (splitOnDot portsString.data)

/-- A decimal port token: nonempty, all digits, value strictly in (0, 65536). -/
def validPortTok (t : List Char) : Bool :=
  !t.isEmpty && t.all isDigitCh &&
    decide (0 < digitsVal t) && decide (digitsVal t < 65536)

/-- A token that is non-numeric (Atoi rejects it) or whose numeric value is
out of range (0, 65536). -/
def badPortTok (t : List Char) : Prop :=
  atoi t = none ∨ ∃ v, atoi t = some v ∧ (v ≤ 0 ∨ 65536 ≤ v)

lemma atoi_of_digits (t : List Char) (hne : t ≠ []) (hdig : t.all isDigitCh = true)
    (hlt : digitsVal t < 2 ^ 63) : atoi t = some ((digitsVal t : Nat) : Int) := by
  cases t with
  | nil => exact absurd rfl hne
  | cons c cs =>
    have hc : isDigitCh c = true := by
      have := List.all_eq_true.mp hdig c (List.mem_cons_self c cs)
      exact this
    have hplus : ¬ c = '+' := by
      intro h; subst h; simp [isDigitCh] at hc
    have hminus : ¬ c = '-' := by
      intro h; subst h; simp [isDigitCh] at hc
    unfold atoi
    simp only [if_neg hplus, if_neg hminus]
    simp only [List.isEmpty_cons, Bool.false_eq_true, if_false, hdig, if_true]
    have hnotover : ¬ ((1 : Int) * (digitsVal (c :: cs) : Int) < -(2 ^ 63) ∨
        (2 : Int) ^ 63 ≤ 1 * (digitsVal (c :: cs) : Int)) := by
      push_neg
      constructor
      · have : (0 : Int) ≤ (digitsVal (c :: cs) : Int) := Int.ofNat_nonneg _
        omega
      · have : (digitsVal (c :: cs) : Int) < (2 : Int) ^ 63 := by
          exact_mod_cast hlt
        omega
    rw [if_neg hnotover]
    simp

lemma parsePortTok_of_valid (t : List Char) (h : validPortTok t = true) :
    parsePortTok t = .ok (digitsVal t) := by
  unfold validPortTok at h
  simp only [Bool.and_eq_true, decide_eq_true_eq, Bool.not_eq_true'] at h
  obtain ⟨⟨⟨hne, hdig⟩, hpos⟩, hlt⟩ := h
  have hne' : t ≠ [] := by
    intro h; subst h; simp at hne
  have ha : atoi t = some ((digitsVal t : Nat) : Int) :=
    atoi_of_digits t hne' hdig (lt_trans hlt (by norm_num))
  have hn : ¬ ((digitsVal t : Int) ≤ 0 ∨ (65536 : Int) ≤ (digitsVal t : Int)) := by
    push_neg
    constructor
    · exact_mod_cast hpos
    · exact_mod_cast hlt
  unfold parsePortTok
  simp only [ha, if_neg hn]

lemma parsePortTok_of_bad (t : List Char) (h : badPortTok t) :
    ∃ e, parsePortTok t = .error e := by
  unfold parsePortTok
  rcases h with h | ⟨v, hv, hrange⟩
  · rw [h]; exact ⟨_, rfl⟩
  · simp only [hv, if_pos hrange]; exact ⟨_, rfl⟩

lemma parsePorts_of_valid (toks : List (List Char))
    (h : ∀ t ∈ toks, validPortTok t = true) :
    parsePorts toks = .ok (toks.map (fun t => (digitsVal t : Int))) := by
  induction toks with
  | nil => rfl
  | cons t rest ih =>
    have ht := parsePortTok_of_valid t (h t (List.mem_cons_self t rest))
    have hrest := ih (fun u hu => h u (List.mem_cons_of_mem t hu))
    unfold parsePorts
    rw [ht, hrest]
    rfl

lemma parsePorts_of_bad (toks : List (List Char)) (t : List Char)
    (ht : t ∈ toks) (hbad : badPortTok t) :
    ∃ e, parsePorts toks = .error e := by
  induction toks with
  | nil => cases ht
  | cons u rest ih =>
    unfold parsePorts
    rcases hu : parsePortTok u with e | p
    · exact ⟨e, rfl⟩
    · have hne : t ≠ u := by
        intro h; subst h
        obtain ⟨e, he⟩ := parsePortTok_of_bad t hbad
        rw [hu] at he; cases he
      have htr : t ∈ rest := by
        cases List.mem_cons.mp ht with
        | inl h => exact absurd h hne
        | inr h => exact h
      obtain ⟨e, he⟩ := ih htr
      rw [he]
      exact ⟨e, rfl⟩

/-- C2: for every string that is a dot-separated list of decimal tokens each
strictly within (0, 65536), parsing yields exactly those ports in the
original order; any non-numeric or out-of-range token rejects the entire
list with an error and no partial result. -/
theorem splitHostportStrings_spec (s : String) (toks : List (List Char))
    (hsplit : splitOnDot s.data = toks) :
    ((∀ t ∈ toks, validPortTok t = true) →
      splitHostportStrings s = .ok (toks.map (fun t => (digitsVal t : Int)))) ∧
    (∀ t ∈ toks, badPortTok t → ∃ e, splitHostportStrings s = .error e) := by
  constructor
  · intro hall
    unfold splitHostportStrings
    rw [hsplit]
    exact parsePorts_of_valid toks hall
  · intro t ht hbad
    unfold splitHostportStrings
    rw [hsplit]
    exact parsePorts_of_bad toks t ht hbad

/-- C2 witness: "8080.8082" parses to exactly [8080, 8082]. -/
theorem splitHostportStrings_spec_witness :
    splitHostportStrings ("8080.8082") = .ok [8080, 8082] := by
  have h := (splitHostportStrings_spec ("8080.8082")
    [['8', '0', '8', '0'], ['8', '0', '8', '2']] (by decide)).1 (by decide)
  simpa using h

/-! Data model

Pods and services carry their metadata as association lists (Go maps,
with lookup defaulting to the empty string as in Go).  The Kubernetes
API is an oracle (`ClusterEnv`): each call's outcome is a function of
its arguments, and every modelled operation also returns the ordered
trace of `ApiCall`s it issued.
-/

abbrev StrMap := List (String × String)

/-- Go map indexing: missing keys yield the zero value `""`. -/
def mapGet (m : StrMap) (k : String) : String :=
  (List.lookup k m).getD ("")

inductive PodPhase where
  | pending | running | succeeded | failed | unknown
deriving DecidableEq

structure Pod where
  name : String
  ns : String
  labels : StrMap
  annots : StrMap
  podIP : String
  phase : PodPhase
  nodeName : String
deriving DecidableEq

structure K8sService where
  name : String
  ns : String
  labels : StrMap
deriving DecidableEq

structure NodeAddress where
  addrType : String
  address : String
deriving DecidableEq

/-- `v1.NodeExternalIP`. -/
def nodeExternalIPType : String := "ExternalIP"

inductive EventType where
  | added | modified | deleted
deriving DecidableEq

/-- One call against the cluster API, in the order the code issues them. -/
inductive ApiCall where
  | createEndpoints (ns name ip : String) (port : Int)
  | createService (ns name : String) (port : Int) (externalIPs : List String)
  | patchPod (ns podName : String) (requestedPort dynamicPort : Int)
  | deleteService (ns name : String)
  | getNode (nodeName : String)
  | listPods (ns : String)
  | listServices (ns : String)
deriving DecidableEq

def ApiCall.isSvcCreate : ApiCall → Bool
  | .createService _ _ _ _ => true
  | _ => false

def ApiCall.isDelete : ApiCall → Bool
  | .deleteService _ _ => true
  | _ => false

/-- Oracle for the cluster API: outcome of each possible call. -/
structure ClusterEnv where
  endpointsCreateOk : String → String → Bool
  servicesCreateOk : String → String → Bool
  assignedNodePort : String → String → Int
  podPatchOk : String → String → Bool
  serviceDeleteOk : String → String → Bool
  nodeGet : String → Option (List NodeAddress)
  podsList : String → List Pod
  podsListErr : String → Bool
  servicesList : String → List K8sService
  servicesListErr : String → Bool

/-! Naming helpers from main.go -/

def podPortToAnnotKey (requestedPort : Int) : String :=
  annotKeyBase ++ "/" ++ toString requestedPort

def podPortToServiceName (pod : Pod) (requestedPort : Int) : String :=
  pod.name ++ "-" ++ toString requestedPort

def namespacedPodName (pod : Pod) : String :=
  pod.ns ++ "/" ++ pod.name

/-! Operations from main.go -/

/-- Model of `getOrFetchExternalNodeIp`: returns the address (or `""`),
the updated cache, and the issued calls. -/
def findExternalIp : List NodeAddress → Option String
  | [] => none
  | a :: rest =>
    if a.addrType = nodeExternalIPType then some a.address
    else findExternalIp rest

def getOrFetchExternalNodeIp (env : ClusterEnv) (nodeName : String)
    (cached : StrMap) : String × StrMap × List ApiCall :=
  match List.lookup nodeName cached with
  | some ip => (ip, cached, [])
  | none =>
    match env.nodeGet nodeName with
    | none => ("", cached, [ApiCall.getNode nodeName])
    | some addrs =>
      match findExternalIp addrs with
      | some ip => (ip, (nodeName, ip) :: cached, [ApiCall.getNode nodeName])
      | none => ("", cached, [ApiCall.getNode nodeName])

/-- Model of `addPodPortAnnotation`: the merge patch writing the
discovery annotation; failure is logged and returned. -/
def addPodPortAnnot (env : ClusterEnv) (pod : Pod)
    (requestedPort dynamicPort : Int) : Except String Unit × List ApiCall :=
  let call := ApiCall.patchPod pod.ns pod.name requestedPort dynamicPort
  if env.podPatchOk pod.ns pod.name then (.ok (), [call])
  else (.error ("patch failed"), [call])

/-- Model of `createService`: the per-port exposure pass.  Order as in
the source: annotation precheck, endpoints create, node-IP fetch,
service create, annotation patch. -/
def createService (env : ClusterEnv) (pod : Pod) (requestedPort : Int)
    (cached : StrMap) : Except String Unit × StrMap × List ApiCall :=
  if mapGet pod.annots (podPortToAnnotKey requestedPort) ≠ "" then
    (.ok (), cached, [])
  else
    let serviceName := podPortToServiceName pod requestedPort
    let epCall := ApiCall.createEndpoints pod.ns serviceName pod.podIP requestedPort
    if env.endpointsCreateOk pod.ns serviceName = false then
      (.error ("endpoints create failed"), cached, [epCall])
    else
      let fetched := getOrFetchExternalNodeIp env pod.nodeName cached
      let extIPs : List String := if fetched.1 ≠ "" then [fetched.1] else []
      let svcCall := ApiCall.createService pod.ns serviceName requestedPort extIPs
      if env.servicesCreateOk pod.ns serviceName = false then
        (.error ("service create failed"), fetched.2.1, epCall :: fetched.2.2 ++ [svcCall])
      else
        let patched := addPodPortAnnot env pod requestedPort
          (env.assignedNodePort pod.ns serviceName)
        (patched.1, fetched.2.1, epCall :: fetched.2.2 ++ svcCall :: patched.2)

/-- Model of `deleteService`. -/
def deleteService (env : ClusterEnv) (ns serviceName : String) :
    Except String Unit × List ApiCall :=
  ((if env.serviceDeleteOk ns serviceName then .ok () else .error ("delete failed")),
   [ApiCall.deleteService ns serviceName])

/-- The loop of `deletePodServices`: one delete per port, first failure
aborts the loop and is returned. -/
def deletePortsLoop (env : ClusterEnv) (pod : Pod) :
    List Int → Except String Unit × List ApiCall
  | [] => (.ok (), [])
  | p :: rest =>
    let d := deleteService env pod.ns (podPortToServiceName pod p)
    match d.1 with
    | .error e => (.error e, d.2)
    | .ok _ =>
      let r := deletePortsLoop env pod rest
      (r.1, d.2 ++ r.2)

/-- Model of `deletePodServices`. -/
def deletePodServices (env : ClusterEnv) (pod : Pod) :
    Except String Unit × List ApiCall :=
  match splitHostportStrings (mapGet pod.labels labelKey) with
  | .error e => (.error e, [])
  | .ok requestedPorts => deletePortsLoop env pod requestedPorts

/-- The creation loop of `handlePodEvent`: one `createService` per port,
threading the node-IP cache; first failure aborts and is returned. -/
def createPortsLoop (env : ClusterEnv) (pod : Pod) :
    List Int → StrMap → Except String Unit × StrMap × List ApiCall
  | [], cached => (.ok (), cached, [])
  | p :: rest, cached =>
    let r := createService env pod p cached
    match r.1 with
    | .error e => (.error e, r.2.1, r.2.2)
    | .ok _ =>
      let r2 := createPortsLoop env pod rest r.2.1
      (r2.1, r2.2.1, r.2.2 ++ r2.2.2)

structure EventResult where
  res : Except String Unit
  handled : List String
  cache : StrMap
  calls : List ApiCall

/-- Model of `handlePodEvent`. -/
def handlePodEvent (env : ClusterEnv) (eventType : EventType) (pod : Pod)
    (handledPods : List String) (cached : StrMap) : EventResult :=
  let key := namespacedPodName pod
  if eventType = .deleted then
    let handled2 := handledPods.filter (fun k => k != key)
    let d := deletePodServices env pod
    ⟨d.1, handled2, cached, d.2⟩
  else
    if handledPods.contains key then ⟨.ok (), handledPods, cached, []⟩
    else if pod.podIP = "" then ⟨.ok (), handledPods, cached, []⟩
    else if pod.phase ≠ PodPhase.running then ⟨.ok (), handledPods, cached, []⟩
    else
      match splitHostportStrings (mapGet pod.labels labelKey) with
      | .error e => ⟨.error e, handledPods, cached, []⟩
      | .ok requestedPorts =>
        let handled2 := key :: handledPods
        let r := createPortsLoop env pod requestedPorts cached
        ⟨r.1, handled2, r.2.1, r.2.2⟩

/-- The loop of `deleteStaleServices`: the delete is issued for every
service with no matching live pod; its outcome is only logged. -/
def reapLoop (pods : List Pod) : List K8sService → List ApiCall
  | [] => []
  | service :: rest =>
    let forPod := mapGet service.labels forPodLabelKey
    let foundPod := pods.any (fun pod => pod.name == forPod && pod.ns == service.ns)
    if foundPod then reapLoop pods rest
    else ApiCall.deleteService service.ns service.name :: reapLoop pods rest

/-- Model of `deleteStaleServices`.  The pod-list error is bound and then
overwritten by the service-list error, exactly as in the source, so only
the latter is checked. -/
def deleteStaleServices (env : ClusterEnv) (ns : String) :
    Except String Unit × List ApiCall :=
  let _podsErrOverwritten := env.podsListErr ns
  let pods := env.podsList ns
  let listCalls := [ApiCall.listPods ns, ApiCall.listServices ns]
  if env.servicesListErr ns then (.error ("list services failed"), listCalls)
  else (.ok (), listCalls ++ reapLoop pods (env.servicesList ns))

/-! Concrete fixtures for witnesses -/

def baseEnv : ClusterEnv :=
  ⟨fun _ _ => true, fun _ _ => true, fun _ _ => 31000, fun _ _ => true,
   fun _ _ => true, fun _ => none, fun _ => [], fun _ => false,
   fun _ => [], fun _ => false⟩

def epFailEnv : ClusterEnv :=
  ⟨fun _ _ => false, fun _ _ => true, fun _ _ => 31000, fun _ _ => true,
   fun _ _ => true, fun _ => none, fun _ => [], fun _ => false,
   fun _ => [], fun _ => false⟩

def patchFailEnv : ClusterEnv :=
  ⟨fun _ _ => true, fun _ _ => true, fun _ _ => 31000, fun _ _ => false,
   fun _ _ => true, fun _ => none, fun _ => [], fun _ => false,
   fun _ => [], fun _ => false⟩

def nodeEnv : ClusterEnv :=
  ⟨fun _ _ => true, fun _ _ => true, fun _ _ => 31000, fun _ _ => true,
   fun _ _ => true,
   fun _ => some [⟨"Hostname", "n1"⟩, ⟨nodeExternalIPType, "198.51.100.7"⟩],
   fun _ => [], fun _ => false, fun _ => [], fun _ => false⟩

def plainPod : Pod :=
  ⟨"mypod", "default", [(labelKey, "8080.8082")], [], "10.0.0.5",
   PodPhase.running, "node1"⟩

def annotatedPod : Pod :=
  ⟨"mypod", "default", [(labelKey, "8080")],
   [("dynamic-hostports.k8s/8080", "31000")], "10.0.0.5",
   PodPhase.running, "node1"⟩

/-! Claims about the per-port exposure pass -/

/-- C3: if the workload already carries the discovery annotation for this
port with a non-empty value, the per-port exposure performs no creation,
no patch, and reports success. -/
theorem createService_skip_when_annotated (env : ClusterEnv) (pod : Pod)
    (requestedPort : Int) (cached : StrMap)
    (h : mapGet pod.annots (podPortToAnnotKey requestedPort) ≠ "") :
    createService env pod requestedPort cached = (.ok (), cached, []) := by
  unfold createService
  rw [if_pos h]

/-- C3 witness: a pod already annotated for port 8080 is skipped. -/
theorem createService_skip_when_annotated_witness :
    createService baseEnv annotatedPod 8080 [] = (.ok (), [], []) :=
  createService_skip_when_annotated baseEnv annotatedPod 8080 [] (by decide)

lemma getOrFetch_calls (env : ClusterEnv) (nodeName : String) (cached : StrMap) :
    (getOrFetchExternalNodeIp env nodeName cached).2.2 = [] ∨
    (getOrFetchExternalNodeIp env nodeName cached).2.2 = [ApiCall.getNode nodeName] := by
  cases hl : List.lookup nodeName cached with
  | some ip => simp [getOrFetchExternalNodeIp, hl]
  | none =>
    cases hg : env.nodeGet nodeName with
    | none => simp [getOrFetchExternalNodeIp, hl, hg]
    | some addrs =>
      cases hf : findExternalIp addrs with
      | some ip => simp [getOrFetchExternalNodeIp, hl, hg, hf]
      | none => simp [getOrFetchExternalNodeIp, hl, hg, hf]

/-- C4: with no pre-existing annotation, the endpoints-create call is the
first call of the pass; if it fails the pass aborts with that error and
issues nothing else (in particular no service create and no patch), and a
service-create call only ever appears when the endpoints create succeeded. -/
theorem createService_endpoint_first (env : ClusterEnv) (pod : Pod)
    (requestedPort : Int) (cached : StrMap)
    (hpre : mapGet pod.annots (podPortToAnnotKey requestedPort) = "") :
    (createService env pod requestedPort cached).2.2.head? =
      some (ApiCall.createEndpoints pod.ns (podPortToServiceName pod requestedPort)
        pod.podIP requestedPort) ∧
    (env.endpointsCreateOk pod.ns (podPortToServiceName pod requestedPort) = false →
      createService env pod requestedPort cached =
        (.error ("endpoints create failed"), cached,
         [ApiCall.createEndpoints pod.ns (podPortToServiceName pod requestedPort)
            pod.podIP requestedPort])) ∧
    (∀ c ∈ (createService env pod requestedPort cached).2.2, c.isSvcCreate = true →
      env.endpointsCreateOk pod.ns (podPortToServiceName pod requestedPort) = true) := by
  cases hep : env.endpointsCreateOk pod.ns (podPortToServiceName pod requestedPort) with
  | false =>
    refine ⟨?_, ?_, ?_⟩
    · simp [createService, hpre, hep]
    · intro _
      simp [createService, hpre, hep]
    · intro c hc hsvc
      simp [createService, hpre, hep] at hc
      subst hc
      simp [ApiCall.isSvcCreate] at hsvc
  | true =>
    refine ⟨?_, ?_, fun _ _ _ => rfl⟩
    · cases hsvc : env.servicesCreateOk pod.ns (podPortToServiceName pod requestedPort) with
      | false => simp [createService, hpre, hep, hsvc]
      | true => simp [createService, hpre, hep, hsvc]
    · intro h
      simp at h

/-- C4 witness: endpoints-create failure for port 8080 aborts the pass with
only the one endpoints call issued. -/
theorem createService_endpoint_first_witness :
    createService epFailEnv plainPod 8080 [] =
      (.error ("endpoints create failed"), [],
       [ApiCall.createEndpoints ("default") (podPortToServiceName plainPod 8080)
          "10.0.0.5" 8080]) :=
  (createService_endpoint_first epFailEnv plainPod 8080 [] rfl).2.1 rfl

/-- C8: when the annotation patch fails after both creations succeeded, the
pass returns the patch error, the trace contains the service-create and the
patch call, and no deletion of the created objects is ever issued. -/
theorem createService_no_rollback (env : ClusterEnv) (pod : Pod)
    (requestedPort : Int) (cached : StrMap)
    (hpre : mapGet pod.annots (podPortToAnnotKey requestedPort) = "")
    (hep : env.endpointsCreateOk pod.ns (podPortToServiceName pod requestedPort) = true)
    (hsvc : env.servicesCreateOk pod.ns (podPortToServiceName pod requestedPort) = true)
    (hpatch : env.podPatchOk pod.ns pod.name = false) :
    (createService env pod requestedPort cached).1 = .error ("patch failed") ∧
    (∃ ips, ApiCall.createService pod.ns (podPortToServiceName pod requestedPort)
        requestedPort ips ∈ (createService env pod requestedPort cached).2.2) ∧
    (ApiCall.patchPod pod.ns pod.name requestedPort
        (env.assignedNodePort pod.ns (podPortToServiceName pod requestedPort)) ∈
      (createService env pod requestedPort cached).2.2) ∧
    (∀ c ∈ (createService env pod requestedPort cached).2.2, c.isDelete = false) := by
  have hmain : createService env pod requestedPort cached =
      (.error ("patch failed"), (getOrFetchExternalNodeIp env pod.nodeName cached).2.1,
       ApiCall.createEndpoints pod.ns (podPortToServiceName pod requestedPort)
           pod.podIP requestedPort ::
         (getOrFetchExternalNodeIp env pod.nodeName cached).2.2 ++
         ApiCall.createService pod.ns (podPortToServiceName pod requestedPort)
             requestedPort
             (if (getOrFetchExternalNodeIp env pod.nodeName cached).1 ≠ "" then
               [(getOrFetchExternalNodeIp env pod.nodeName cached).1] else []) ::
         [ApiCall.patchPod pod.ns pod.name requestedPort
            (env.assignedNodePort pod.ns (podPortToServiceName pod requestedPort))]) := by
    simp [createService, addPodPortAnnot, hpre, hep, hsvc, hpatch]
  rw [hmain]
  refine ⟨rfl, ?_, ?_, ?_⟩
  · refine ⟨(if (getOrFetchExternalNodeIp env pod.nodeName cached).1 ≠ "" then
        [(getOrFetchExternalNodeIp env pod.nodeName cached).1] else []), ?_⟩
    simp
  · simp
  · rcases getOrFetch_calls env pod.nodeName cached with hcalls | hcalls
    · rw [hcalls]
      intro c hc
      simp only [List.nil_append] at hc
      fin_cases hc <;> rfl
    · rw [hcalls]
      intro c hc
      fin_cases hc <;> rfl

/-- C8 witness: patch failure for port 8080 returns the error and issues no
delete call. -/
theorem createService_no_rollback_witness :
    (createService patchFailEnv plainPod 8080 []).1 = .error ("patch failed") ∧
    (∀ c ∈ (createService patchFailEnv plainPod 8080 []).2.2, c.isDelete = false) :=
  ⟨(createService_no_rollback patchFailEnv plainPod 8080 [] rfl rfl rfl rfl).1,
   (createService_no_rollback patchFailEnv plainPod 8080 [] rfl rfl rfl rfl).2.2.2⟩

/-- C7: a cache hit returns the cached address with no node query; every
miss issues exactly one node query; a failed query or one finding no
external-address entry returns empty leaving the cache unchanged (so the
next lookup queries again); a found external address is stored, after
which lookups for that node answer from the cache with zero queries. -/
theorem getOrFetchExternalNodeIp_cache_policy (env : ClusterEnv)
    (nodeName : String) (cached : StrMap) :
    (∀ ip, List.lookup nodeName cached = some ip →
      getOrFetchExternalNodeIp env nodeName cached = (ip, cached, [])) ∧
    (List.lookup nodeName cached = none →
      (getOrFetchExternalNodeIp env nodeName cached).2.2 = [ApiCall.getNode nodeName] ∧
      (env.nodeGet nodeName = none →
        getOrFetchExternalNodeIp env nodeName cached =
          ("", cached, [ApiCall.getNode nodeName])) ∧
      (∀ addrs, env.nodeGet nodeName = some addrs → findExternalIp addrs = none →
        getOrFetchExternalNodeIp env nodeName cached =
          ("", cached, [ApiCall.getNode nodeName])) ∧
      (∀ addrs ip, env.nodeGet nodeName = some addrs → findExternalIp addrs = some ip →
        getOrFetchExternalNodeIp env nodeName cached =
          (ip, (nodeName, ip) :: cached, [ApiCall.getNode nodeName]) ∧
        ∀ env2, getOrFetchExternalNodeIp env2 nodeName ((nodeName, ip) :: cached) =
          (ip, (nodeName, ip) :: cached, []))) := by
  constructor
  · intro ip hip
    simp [getOrFetchExternalNodeIp, hip]
  · intro hmiss
    refine ⟨?_, ?_, ?_, ?_⟩
    · cases hg : env.nodeGet nodeName with
      | none => simp [getOrFetchExternalNodeIp, hmiss, hg]
      | some addrs =>
        cases hf : findExternalIp addrs with
        | none => simp [getOrFetchExternalNodeIp, hmiss, hg, hf]
        | some ip => simp [getOrFetchExternalNodeIp, hmiss, hg, hf]
    · intro hg
      simp [getOrFetchExternalNodeIp, hmiss, hg]
    · intro addrs hg hf
      simp [getOrFetchExternalNodeIp, hmiss, hg, hf]
    · intro addrs ip hg hf
      refine ⟨by simp [getOrFetchExternalNodeIp, hmiss, hg, hf], ?_⟩
      intro env2
      simp [getOrFetchExternalNodeIp, List.lookup]

/-- C7 witness: a miss followed by a node query finding an external address
stores and returns it with exactly one node query issued. -/
theorem getOrFetchExternalNodeIp_cache_policy_witness :
    getOrFetchExternalNodeIp nodeEnv ("node1") [] =
      ("198.51.100.7", [("node1", "198.51.100.7")], [ApiCall.getNode ("node1")]) :=
  (((getOrFetchExternalNodeIp_cache_policy nodeEnv ("node1") []).2 rfl).2.2.2
    [⟨"Hostname", "n1"⟩, ⟨nodeExternalIPType, "198.51.100.7"⟩]
    "198.51.100.7" rfl (by decide)).1

/-! Claims about event handling -/

/-- C1: for a non-Deleted event, an already-handled, IP-less, or
non-Running workload is a no-op with no state change and no calls;
otherwise (with a parseable label) the workload key is in the handled set
afterwards — whatever the per-port outcomes were — so any redelivered
non-Deleted event is a no-op with zero calls. -/
theorem handlePodEvent_at_most_once (env : ClusterEnv) (et : EventType) (pod : Pod)
    (hp : List String) (cached : StrMap) (hnd : et ≠ EventType.deleted) :
    ((hp.contains (namespacedPodName pod) = true ∨ pod.podIP = "" ∨
        pod.phase ≠ PodPhase.running) →
      handlePodEvent env et pod hp cached = ⟨.ok (), hp, cached, []⟩) ∧
    (hp.contains (namespacedPodName pod) = false → pod.podIP ≠ "" →
      pod.phase = PodPhase.running →
      ∀ ports, splitHostportStrings (mapGet pod.labels labelKey) = .ok ports →
      (handlePodEvent env et pod hp cached).handled = namespacedPodName pod :: hp ∧
      (∀ env2 et2 cached2, et2 ≠ EventType.deleted →
        handlePodEvent env2 et2 pod (handlePodEvent env et pod hp cached).handled cached2 =
          ⟨.ok (), (handlePodEvent env et pod hp cached).handled, cached2, []⟩)) := by
  constructor
  · intro h
    cases hc : hp.contains (namespacedPodName pod) with
    | true =>
      have hmem : namespacedPodName pod ∈ hp := by simpa using hc
      simp [handlePodEvent, hnd, hmem]
    | false =>
      have hnmem : namespacedPodName pod ∉ hp := by simpa using hc
      rcases h with h | h | h
      · rw [hc] at h; cases h
      · simp [handlePodEvent, hnd, hnmem, h]
      · by_cases hip : pod.podIP = ""
        · simp [handlePodEvent, hnd, hnmem, hip]
        · simp [handlePodEvent, hnd, hnmem, hip, h]
  · intro h1 h2 h3 ports hports
    have hnmem : namespacedPodName pod ∉ hp := by simpa using h1
    have hmain : (handlePodEvent env et pod hp cached).handled =
        namespacedPodName pod :: hp := by
      simp [handlePodEvent, hnd, hnmem, h2, h3, hports]
    refine ⟨hmain, ?_⟩
    intro env2 et2 cached2 hnd2
    rw [hmain]
    have hcont : namespacedPodName pod ∈ namespacedPodName pod :: hp :=
      List.mem_cons_self _ _
    simp [handlePodEvent, hnd2, hcont]

/-- C1 witness: a Running pod with an IP and ports 8080.8082 is marked
handled by its Added event, and a redelivered Modified event is a no-op. -/
theorem handlePodEvent_at_most_once_witness :
    (handlePodEvent baseEnv EventType.added plainPod [] []).handled =
      [namespacedPodName plainPod] ∧
    handlePodEvent baseEnv EventType.modified plainPod
        (handlePodEvent baseEnv EventType.added plainPod [] []).handled [] =
      ⟨.ok (), (handlePodEvent baseEnv EventType.added plainPod [] []).handled, [], []⟩ := by
  have h := (handlePodEvent_at_most_once baseEnv EventType.added plainPod [] []
    (by decide)).2 rfl (by decide) rfl [8080, 8082] rfl
  exact ⟨h.1, h.2 baseEnv EventType.modified [] (by decide)⟩

lemma deletePortsLoop_all_ok (env : ClusterEnv) (pod : Pod) (ports : List Int)
    (h : ∀ p ∈ ports, env.serviceDeleteOk pod.ns (podPortToServiceName pod p) = true) :
    deletePortsLoop env pod ports =
      (.ok (), ports.map (fun p =>
        ApiCall.deleteService pod.ns (podPortToServiceName pod p))) := by
  induction ports with
  | nil => rfl
  | cons p rest ih =>
    have hpp := h p (List.mem_cons_self p rest)
    have hrest := ih (fun q hq => h q (List.mem_cons_of_mem p hq))
    simp [deletePortsLoop, deleteService, hpp, hrest]

lemma deletePortsLoop_stops (env : ClusterEnv) (pod : Pod) (l1 : List Int)
    (p : Int) (l2 : List Int)
    (h1 : ∀ q ∈ l1, env.serviceDeleteOk pod.ns (podPortToServiceName pod q) = true)
    (hpfail : env.serviceDeleteOk pod.ns (podPortToServiceName pod p) = false) :
    deletePortsLoop env pod (l1 ++ p :: l2) =
      (.error ("delete failed"), (l1 ++ [p]).map (fun q =>
        ApiCall.deleteService pod.ns (podPortToServiceName pod q))) := by
  induction l1 with
  | nil => simp [deletePortsLoop, deleteService, hpfail]
  | cons q rest ih =>
    have hq := h1 q (List.mem_cons_self q rest)
    have hrest := ih (fun r hr => h1 r (List.mem_cons_of_mem q hr))
    simp [deletePortsLoop, deleteService, hq, hrest]

lemma contains_filter_ne (hp : List String) (key : String) :
    (hp.filter (fun k => k != key)).contains key = false := by
  have hnot : key ∉ hp.filter (fun k => k != key) := by
    intro hmem
    have hpk := List.of_mem_filter hmem
    simp at hpk
  simp [hnot]

/-- C5: a Deleted event for a workload whose label parses to the given
ports removes the workload key from the handled set; with all deletions
succeeding it issues exactly one delete per port in order; the first
failing deletion is returned and stops the remaining deletions. -/
theorem handlePodEvent_deleted_spec (env : ClusterEnv) (pod : Pod)
    (hp : List String) (cached : StrMap) (ports : List Int)
    (hparse : splitHostportStrings (mapGet pod.labels labelKey) = .ok ports) :
    (handlePodEvent env EventType.deleted pod hp cached).handled =
      hp.filter (fun k => k != namespacedPodName pod) ∧
    (handlePodEvent env EventType.deleted pod hp cached).handled.contains
      (namespacedPodName pod) = false ∧
    (handlePodEvent env EventType.deleted pod hp cached).cache = cached ∧
    ((∀ p ∈ ports, env.serviceDeleteOk pod.ns (podPortToServiceName pod p) = true) →
      (handlePodEvent env EventType.deleted pod hp cached).calls =
        ports.map (fun p => ApiCall.deleteService pod.ns (podPortToServiceName pod p)) ∧
      (handlePodEvent env EventType.deleted pod hp cached).res = .ok ()) ∧
    (∀ l1 p l2, ports = l1 ++ p :: l2 →
      (∀ q ∈ l1, env.serviceDeleteOk pod.ns (podPortToServiceName pod q) = true) →
      env.serviceDeleteOk pod.ns (podPortToServiceName pod p) = false →
      (handlePodEvent env EventType.deleted pod hp cached).calls =
        (l1 ++ [p]).map (fun q => ApiCall.deleteService pod.ns (podPortToServiceName pod q)) ∧
      (handlePodEvent env EventType.deleted pod hp cached).res = .error ("delete failed")) := by
  refine ⟨?_, ?_, ?_, ?_, ?_⟩
  · simp [handlePodEvent]
  · have hh : (handlePodEvent env EventType.deleted pod hp cached).handled =
        hp.filter (fun k => k != namespacedPodName pod) := by
      simp [handlePodEvent]
    rw [hh, contains_filter_ne]
  · simp [handlePodEvent]
  · intro hall
    have hloop := deletePortsLoop_all_ok env pod ports hall
    constructor
    · simp [handlePodEvent, deletePodServices, hparse, hloop]
    · simp [handlePodEvent, deletePodServices, hparse, hloop]
  · intro l1 p l2 hsplit hok hfail
    subst hsplit
    have hloop := deletePortsLoop_stops env pod l1 p l2 hok hfail
    constructor
    · simp [handlePodEvent, deletePodServices, hparse, hloop]
    · simp [handlePodEvent, deletePodServices, hparse, hloop]

/-- C5 witness: deleting a pod exposed on 8080 and 8082 removes it from
the handled set and deletes exactly the two derived services. -/
theorem handlePodEvent_deleted_spec_witness :
    (handlePodEvent baseEnv EventType.deleted plainPod
        [namespacedPodName plainPod] []).handled = [] ∧
    (handlePodEvent baseEnv EventType.deleted plainPod
        [namespacedPodName plainPod] []).calls =
      [ApiCall.deleteService ("default") (podPortToServiceName plainPod 8080),
       ApiCall.deleteService ("default") (podPortToServiceName plainPod 8082)] := by
  have h := handlePodEvent_deleted_spec baseEnv plainPod
    [namespacedPodName plainPod] [] [8080, 8082] rfl
  refine ⟨?_, ?_⟩
  · rw [h.1]; rfl
  · rw [(h.2.2.2.1 (fun p _ => rfl)).1]; rfl

lemma handlePodEvent_parse_error_aux (env : ClusterEnv) (et : EventType) (pod : Pod)
    (hp : List String) (cached : StrMap) (e : String)
    (hnd : et ≠ EventType.deleted)
    (h1 : hp.contains (namespacedPodName pod) = false)
    (h2 : pod.podIP ≠ "") (h3 : pod.phase = PodPhase.running)
    (hparse : splitHostportStrings (mapGet pod.labels labelKey) = .error e) :
    handlePodEvent env et pod hp cached = ⟨.error e, hp, cached, []⟩ := by
  have hnmem : namespacedPodName pod ∉ hp := by simpa using h1
  simp [handlePodEvent, hnd, hnmem, h2, h3, hparse]

/-- C9: a non-Deleted event for an unhandled Running workload with an IP
but a malformed port-list label aborts with the parse error, issues no
call, and leaves the handled set unchanged, so a later Modified event for
the same workload reaches the parsing step again (same parse error, not
the already-handled no-op). -/
theorem handlePodEvent_malformed_label (env : ClusterEnv) (et : EventType) (pod : Pod)
    (hp : List String) (cached : StrMap) (e : String)
    (hnd : et ≠ EventType.deleted)
    (h1 : hp.contains (namespacedPodName pod) = false)
    (h2 : pod.podIP ≠ "") (h3 : pod.phase = PodPhase.running)
    (hparse : splitHostportStrings (mapGet pod.labels labelKey) = .error e) :
    handlePodEvent env et pod hp cached = ⟨.error e, hp, cached, []⟩ ∧
    (∀ env2 cached2, handlePodEvent env2 EventType.modified pod hp cached2 =
      ⟨.error e, hp, cached2, []⟩) :=
  ⟨handlePodEvent_parse_error_aux env et pod hp cached e hnd h1 h2 h3 hparse,
   fun env2 cached2 => handlePodEvent_parse_error_aux env2 EventType.modified pod hp
     cached2 e (by decide) h1 h2 h3 hparse⟩

def badLabelPod : Pod :=
  ⟨"badpod", "default", [(labelKey, "80x80")], [], "10.0.0.6",
   PodPhase.running, "node1"⟩

/-- C9 witness: a pod with label value "80x80" aborts with a parse error
and no state change. -/
theorem handlePodEvent_malformed_label_witness :
    handlePodEvent baseEnv EventType.added badLabelPod [] [] =
      ⟨.error ("invalid syntax"), [], [], []⟩ :=
  (handlePodEvent_malformed_label baseEnv EventType.added badLabelPod [] []
    "invalid syntax" (by decide) rfl (by decide) rfl rfl).1

/-! Claims about the stale-service reaper -/

lemma reapLoop_eq (pods : List Pod) (svcs : List K8sService) :
    reapLoop pods svcs =
      (svcs.filter (fun s => !(pods.any (fun pod =>
          pod.name == mapGet s.labels forPodLabelKey && pod.ns == s.ns)))).map
        (fun s => ApiCall.deleteService s.ns s.name) := by
  induction svcs with
  | nil => rfl
  | cons s rest ih =>
    cases h : pods.any (fun pod =>
        pod.name == mapGet s.labels forPodLabelKey && pod.ns == s.ns) with
    | true => simp [reapLoop, h, ih, List.filter_cons]
    | false => simp [reapLoop, h, ih, List.filter_cons]

/-- C6: with the service listing succeeding, a reaper pass reports success
and issues exactly one delete per listed managed service whose for-pod
label matches no live workload of the same namespace — services owned by
a live workload are untouched — and neither the issued calls nor the
result depend on individual delete outcomes (failures do not stop the
pass). -/
theorem deleteStaleServices_exact (env : ClusterEnv) (ns : String)
    (hok : env.servicesListErr ns = false) :
    (deleteStaleServices env ns).1 = .ok () ∧
    (deleteStaleServices env ns).2 =
      ApiCall.listPods ns :: ApiCall.listServices ns ::
        ((env.servicesList ns).filter (fun s => !((env.podsList ns).any (fun pod =>
            pod.name == mapGet s.labels forPodLabelKey && pod.ns == s.ns)))).map
          (fun s => ApiCall.deleteService s.ns s.name) ∧
    (∀ sdo2 : String → String → Bool,
      deleteStaleServices ⟨env.endpointsCreateOk, env.servicesCreateOk,
        env.assignedNodePort, env.podPatchOk, sdo2, env.nodeGet, env.podsList,
        env.podsListErr, env.servicesList, env.servicesListErr⟩ ns =
        deleteStaleServices env ns) := by
  refine ⟨?_, ?_, ?_⟩
  · simp [deleteStaleServices, hok]
  · simp [deleteStaleServices, hok, reapLoop_eq]
  · intro sdo2
    rfl

def livePodA : Pod :=
  ⟨"a", "default", [(labelKey, "8080")], [], "10.0.0.7", PodPhase.running, "node1"⟩

def svcA : K8sService :=
  ⟨"a-8080", "default", [(managedByLabelKey, managedByLabelValue), (forPodLabelKey, "a")]⟩

def svcB : K8sService :=
  ⟨"b-9090", "default", [(managedByLabelKey, managedByLabelValue), (forPodLabelKey, "b")]⟩

def reaperEnv : ClusterEnv :=
  ⟨fun _ _ => true, fun _ _ => true, fun _ _ => 31000, fun _ _ => true,
   fun _ _ => true, fun _ => none, fun _ => [livePodA], fun _ => false,
   fun _ => [svcA, svcB], fun _ => false⟩

/-- C6 witness: with live workload "a" owning "a-8080" and orphan
"b-9090", the pass deletes exactly "b-9090". -/
theorem deleteStaleServices_exact_witness :
    (deleteStaleServices reaperEnv ("default")).1 = .ok () ∧
    (deleteStaleServices reaperEnv ("default")).2 =
      [ApiCall.listPods ("default"), ApiCall.listServices ("default"),
       ApiCall.deleteService ("default") "b-9090"] := by
  have h := deleteStaleServices_exact reaperEnv ("default") rfl
  refine ⟨h.1, ?_⟩
  rw [h.2.1]
  rfl

/-- C10 (implicit): the reaper's result is independent of the pod-list
call's error (that error variable is overwritten before being checked),
and with an empty pod-list result and a successful service listing every
listed managed service is treated as stale and its deletion is issued. -/
theorem deleteStaleServices_pods_list_error_ignored
    (eco sco : String → String → Bool) (anp : String → String → Int)
    (ppo sdo : String → String → Bool) (ng : String → Option (List NodeAddress))
    (pl : String → List Pod) (ple1 ple2 : String → Bool)
    (sl : String → List K8sService) (sle : String → Bool) (ns : String) :
    deleteStaleServices ⟨eco, sco, anp, ppo, sdo, ng, pl, ple1, sl, sle⟩ ns =
      deleteStaleServices ⟨eco, sco, anp, ppo, sdo, ng, pl, ple2, sl, sle⟩ ns ∧
    (sle ns = false → pl ns = [] →
      (deleteStaleServices ⟨eco, sco, anp, ppo, sdo, ng, pl, ple1, sl, sle⟩ ns).1 =
        .ok () ∧
      (deleteStaleServices ⟨eco, sco, anp, ppo, sdo, ng, pl, ple1, sl, sle⟩ ns).2 =
        ApiCall.listPods ns :: ApiCall.listServices ns ::
          (sl ns).map (fun s => ApiCall.deleteService s.ns s.name)) := by
  refine ⟨rfl, ?_⟩
  intro hsle hpl
  constructor
  · simp [deleteStaleServices, hsle]
  · simp [deleteStaleServices, hsle, hpl, reapLoop_eq]

/-- C10 witness: a failed pod listing returning no pods does not abort the
pass; both managed services are treated as stale and deleted. -/
theorem deleteStaleServices_pods_list_error_ignored_witness :
    (deleteStaleServices ⟨fun _ _ => true, fun _ _ => true, fun _ _ => 31000,
        fun _ _ => true, fun _ _ => true, fun _ => none, fun _ => [],
        fun _ => true, fun _ => [svcA, svcB], fun _ => false⟩ "default").2 =
      [ApiCall.listPods ("default"), ApiCall.listServices ("default"),
       ApiCall.deleteService ("default") "a-8080",
       ApiCall.deleteService ("default") "b-9090"] := by
  have h := (deleteStaleServices_pods_list_error_ignored (fun _ _ => true)
    (fun _ _ => true) (fun _ _ => 31000) (fun _ _ => true) (fun _ _ => true)
    (fun _ => none) (fun _ => []) (fun _ => true) (fun _ => false)
    (fun _ => [svcA, svcB]) (fun _ => false) ("default")).2 rfl rfl
  rw [h.2]
  rfl

end DynamicHostports
